import Mathlib

/-!
Verification development for the sumble-mcp-server repository.

The repository contains four near-duplicate server variants:
* `src/src/server-http.ts` — a hand-rolled HTTP + SSE transport with an inline
  JSON-RPC dispatcher and v2/v3 upstream endpoints;
* `src/unnamed/part_000` — the same transport with v1 upstream endpoints;
* `src/unnamed/part_001` — a stdio MCP server with a `SumbleClient` class and a
  `handleToolCall` argument-shaping function;
* `src/src/server.ts` — an express + SDK variant registering tools via
  `server.tool`.

This file shallowly embeds the data model and the operations of those files:
JavaScript values (with JS truthiness, which drives every `||` default and
every `if (args.x)` guard in the source), the per-tool argument shaping, the
upstream API client wrapper, and the session-multiplexed SSE transport of
`server-http.ts` as an explicit state machine over an event trace.
-/

namespace SumbleMcp

/-- A JavaScript runtime value, as used for tool arguments and request bodies.
Numbers are modelled as integers (every numeric field in the source is an
integer: limits, offsets, ids, HTTP statuses). Object fields keep insertion
order, matching JS object literals. -/
inductive JsValue where
  | undefined
  | null
  | bool (b : Bool)
  | num (n : Int)
  | str (s : String)
  | arr (elems : List JsValue)
  | obj (fields : List (String × JsValue))

/-- JS truthiness: `undefined`, `null`, `false`, `0` and `""` are falsy;
every array and object (even empty) is truthy. This is the semantics of the
`if (args.x)` guards and the `x || d` defaults throughout the source. -/
def truthy : JsValue → Bool
  | .undefined => false
  | .null => false
  | .bool b => b
  | .num n => n != 0
  | .str s => s != ""
  | .arr _ => true
  | .obj _ => true

/-- A tool-call argument object: property access on a missing key yields
`undefined`, as in JS. -/
abbrev Args := List (String × JsValue)

/-- JS property access `args[key]` on the argument object. -/
def getArg (args : Args) (key : String) : JsValue :=
  match args.find? (fun p => p.1 == key) with
  | some p => p.2
  | none => .undefined

/-- Lookup of a key in a JS object literal (first binding wins). -/
def getFields : List (String × JsValue) → String → JsValue
  | [], _ => .undefined
  | (k, v) :: rest, key => if k = key then v else getFields rest key

/-- JS property access on a value: defined only for objects, `undefined`
otherwise. -/
def JsValue.get (v : JsValue) (key : String) : JsValue :=
  match v with
  | .obj fields => getFields fields key
  | _ => .undefined

/-- The JS `||` operator: the left operand when truthy, else the right. -/
def jsOr (v d : JsValue) : JsValue := if truthy v = true then v else d

/-- One conditional field insertion, `if (args.x) filters.x = args.x;`
(part_001, handleToolCall filter building). -/
def addIf (fields : List (String × JsValue)) (key : String) (v : JsValue) :
    List (String × JsValue) :=
  if truthy v = true then fields ++ [(key, v)] else fields

/-- `Object.keys(filters).length > 0 ? filters : <dflt>` (part_001). -/
def filtersOrDefault (fields dflt : List (String × JsValue)) : JsValue :=
  if fields.length > 0 then .obj fields else .obj dflt

/-- An outbound request to the upstream Sumble API: endpoint path, HTTP
method, JSON body. -/
structure UpstreamCall where
  endpoint : String
  method : String
  body : JsValue

/-- The organization-identifier builder shared verbatim by the
`enrich_organization` and `find_people` cases of `handleToolCall`
(part_001 lines 400-405 and 449-453): first truthy of domain /
organization_id / slug, else a thrown error. -/
def buildOrganization (args : Args) : Except String JsValue :=
  if truthy (getArg args "domain") = true then
    .ok (.obj [("domain", getArg args "domain")])
  else if truthy (getArg args "organization_id") = true then
    .ok (.obj [("id", getArg args "organization_id")])
  else if truthy (getArg args "slug") = true then
    .ok (.obj [("slug", getArg args "slug")])
  else
    .error "Must provide domain, organization_id, or slug"

/-- The optional organization scope of the `find_jobs` case
(part_001 lines 424-427): like `buildOrganization` but `undefined` when no
identifier is given instead of an error. -/
def buildOrganizationOpt (args : Args) : JsValue :=
  if truthy (getArg args "domain") = true then
    .obj [("domain", getArg args "domain")]
  else if truthy (getArg args "organization_id") = true then
    .obj [("id", getArg args "organization_id")]
  else if truthy (getArg args "slug") = true then
    .obj [("slug", getArg args "slug")]
  else
    .undefined

/-- The shared filter object of the find_organizations / enrich_organization /
find_jobs cases of `handleToolCall`: conditional keys in source order. -/
def techFilters (args : Args) : List (String × JsValue) :=
  addIf (addIf (addIf (addIf [] "technologies" (getArg args "technologies"))
    "technology_categories" (getArg args "technology_categories"))
    "since" (getArg args "since")) "query" (getArg args "query")

/-- The filter object of the `find_jobs` case of `handleToolCall`
(part_001 lines 430-435): conditional keys in source order. -/
def jobsFilters (args : Args) : List (String × JsValue) :=
  addIf (addIf (addIf (addIf (addIf [] "technologies" (getArg args "technologies"))
    "technology_categories" (getArg args "technology_categories"))
    "countries" (getArg args "countries"))
    "since" (getArg args "since")) "query" (getArg args "query")

/-- The filter object of the `find_people` case of `handleToolCall`
(part_001 lines 456-461): conditional keys in source order. -/
def peopleFilters (args : Args) : List (String × JsValue) :=
  addIf (addIf (addIf (addIf (addIf [] "job_functions" (getArg args "job_functions"))
    "job_levels" (getArg args "job_levels"))
    "countries" (getArg args "countries"))
    "since" (getArg args "since")) "query" (getArg args "query")

/-- Argument shaping of the stdio variant, `handleToolCall` in
`src/unnamed/part_001` (lines 374-476). Returns the upstream request the
tool call issues, or the message of the error it throws. The network call
itself and the final JSON.stringify of the response are not part of the
shaping and are modelled at the call sites. -/
def handleToolCall (toolName : String) (args : Args) : Except String UpstreamCall :=
  if toolName = "find_organizations" then
    .ok ⟨"/v3/organizations/find", "POST", .obj [
      ("filters", filtersOrDefault (techFilters args) [("technologies", .arr [])]),
      ("order_by_column", getArg args "order_by_column"),
      ("order_by_direction", getArg args "order_by_direction"),
      ("limit", jsOr (getArg args "limit") (.num 10)),
      ("offset", jsOr (getArg args "offset") (.num 0))]⟩
  else if toolName = "enrich_organization" then
    match buildOrganization args with
    | .error e => .error e
    | .ok organization =>
      .ok ⟨"/v3/organizations/enrich", "POST", .obj [
        ("organization", organization),
        ("filters", filtersOrDefault (techFilters args) [("technologies", .arr [])])]⟩
  else if toolName = "find_jobs" then
    .ok ⟨"/v3/jobs/find", "POST", .obj [
      ("organization", buildOrganizationOpt args),
      ("filters", filtersOrDefault (jobsFilters args) [("technologies", .arr [])]),
      ("limit", jsOr (getArg args "limit") (.num 10)),
      ("offset", jsOr (getArg args "offset") (.num 0))]⟩
  else if toolName = "find_people" then
    match buildOrganization args with
    | .error e => .error e
    | .ok organization =>
      .ok ⟨"/v3/people/find", "POST", .obj [
        ("organization", organization),
        ("filters", filtersOrDefault (peopleFilters args) []),
        ("limit", jsOr (getArg args "limit") (.num 10)),
        ("offset", jsOr (getArg args "offset") (.num 0))]⟩
  else
    .error ("Unknown tool: " ++ toolName)

/-- Argument shaping of the HTTP variant, the `tools/call` dispatch in
`src/src/server-http.ts` (lines 142-182). Each branch builds the literal
request body of the source and posts it; the `else` branch throws
`Unknown tool`. No branch validates the identifying fields: `enrich_organization`
and `find_people` forward `args.domain` / `args.organization_domain` even when
they are undefined. -/
def httpToolDispatch (toolName : String) (args : Args) : Except String UpstreamCall :=
  if toolName = "find_organizations" then
    .ok ⟨"/v2/organizations/find", "POST", .obj [
      ("filters", .obj [
        ("technologies", jsOr (getArg args "technologies") (.arr [])),
        ("industries", jsOr (getArg args "industries") (.arr [])),
        ("countries", jsOr (getArg args "countries") (.arr []))]),
      ("limit", jsOr (getArg args "limit") (.num 10))]⟩
  else if toolName = "enrich_organization" then
    .ok ⟨"/v2/organizations/enrich", "POST", .obj [
      ("organization", .obj [("domain", getArg args "domain")]),
      ("filters", .obj [])]⟩
  else if toolName = "find_jobs" then
    .ok ⟨"/v2/jobs/find", "POST", .obj [
      ("filters", .obj [
        ("technologies", jsOr (getArg args "technologies") (.arr [])),
        ("countries", jsOr (getArg args "countries") (.arr [])),
        ("keywords", if truthy (getArg args "keywords") = true
          then .arr [getArg args "keywords"] else .arr [])]),
      ("limit", jsOr (getArg args "limit") (.num 10))]⟩
  else if toolName = "find_people" then
    .ok ⟨"/v3/people/find", "POST", .obj [
      ("organization", .obj [("domain", getArg args "organization_domain")]),
      ("filters", .obj [
        ("job_titles", jsOr (getArg args "job_titles") (.arr [])),
        ("countries", jsOr (getArg args "countries") (.arr []))]),
      ("limit", jsOr (getArg args "limit") (.num 10))]⟩
  else
    .error ("Unknown tool: " ++ toolName)

/-- Extracts the request body out of a shaping result; `undefined` when the
shaping threw instead of producing an upstream request. -/
def bodyOf : Except String UpstreamCall → JsValue
  | .ok c => c.body
  | .error _ => .undefined

/-- An upstream HTTP response as seen by `fetch`: numeric status, raw text
(read on failure) and parsed JSON body (read on success). -/
structure HttpResponse where
  status : Int
  text : String
  body : JsValue

/-- `response.ok` of fetch: status in the 2xx range. -/
def respOk (r : HttpResponse) : Bool := decide (200 ≤ r.status ∧ r.status < 300)

/-- `sumbleRequest` of `src/src/server-http.ts` (lines 11-32), applied to the
response the network returned: on a non-2xx status it throws
`Sumble API error: <status> <text>`, on 2xx it returns the parsed JSON body. -/
def sumbleRequest (r : HttpResponse) : Except String JsValue :=
  if respOk r = true then .ok r.body
  else .error ("Sumble API error: " ++ toString r.status ++ " " ++ r.text)

/-- `SumbleClient.request` of `src/unnamed/part_001` (lines 26-44): same
contract with the message format `Sumble API error (<status>): <text>`. -/
def clientRequest (r : HttpResponse) : Except String JsValue :=
  if respOk r = true then .ok r.body
  else .error ("Sumble API error (" ++ toString r.status ++ "): " ++ r.text)

/-- The four tool names declared by the `tools/list` dispatch of
`src/src/server-http.ts` (lines 130-135), in source order. The descriptor
records also carry a description and a JSON schema; no claim inspects those,
so the embedding keeps the names. -/
def httpToolsListNames : List String :=
  ["find_organizations", "enrich_organization", "find_jobs", "find_people"]

/-- The names of the `TOOLS` table of `src/unnamed/part_001`
(lines 112-368), in source order. -/
def stdioToolNames : List String :=
  ["find_organizations", "enrich_organization", "find_jobs", "find_people"]

/-- The tool names declared by the `tools/list` branch of
`src/unnamed/part_000` (lines 137-190), in source order. -/
def part000ToolNames : List String :=
  ["find_organizations", "enrich_organization", "find_jobs", "find_people"]

/-- The tool names registered through `server.tool` in `src/src/server.ts`
(lines 35-86), in registration order. Only three tools are registered;
there is no `find_jobs` registration in that file. -/
def serverTsRegisteredToolNames : List String :=
  ["enrich_organization", "find_organizations", "find_people"]

/-- Modelled from the spec: the SDK McpServer answers `tools/list` with the
full static Tool Descriptor table, i.e. exactly the tools registered via
`server.tool` (spec section 4.1, dispatch rule for `tools/list`). The SDK
itself is an external dependency, not part of src/. -/
def serverTsToolsList : List String := serverTsRegisteredToolNames

/-- Outcome of process startup (`src/src/server-http.ts` lines 3-7,
`src/unnamed/part_001` lines 483-488): `exited code diagnostic` means the
process printed the diagnostic and called process.exit with that code before
any server was created; `started` means startup proceeded. -/
inductive StartupResult where
  | exited (code : Int) (diagnostic : String)
  | started
deriving DecidableEq

/-- The startup credential check `if (!SUMBLE_API_KEY)`: the JS negation is a
falsiness test, so both an unset variable and a variable set to the empty
string take the exit branch. -/
def startupCheck (key : Option String) : StartupResult :=
  match key with
  | none => .exited 1 "Error: SUMBLE_API_KEY environment variable is required"
  | some s =>
    if s = "" then .exited 1 "Error: SUMBLE_API_KEY environment variable is required"
    else .started

/-- The `limit` value the `server.ts` handlers send upstream (lines 56-63 and
74-80): the zod schema applies a default of 10 when the argument is absent,
and the handler then applies `limit || 10`, so an explicit 0 also becomes 10. -/
def serverTsLimit (limit : Option Int) : Int :=
  let l := limit.getD 10
  if l = 0 then 10 else l

/-- The request headers the `/sse` handler reads (`src/src/server-http.ts`
lines 73-74). `none` models a header that was not sent. -/
structure Headers where
  xForwardedProto : Option String
  xForwardedHost : Option String
  host : Option String

/-- The JS `||` on an optional header string: an absent or empty header falls
through to the default. -/
def strOr : Option String → String → String
  | some s, d => if s = "" then d else s
  | none, d => d

/-- The message-submission URL advertised in the `endpoint` event
(`src/src/server-http.ts` lines 73-77): scheme from `x-forwarded-proto`
defaulting to https, host from `x-forwarded-host`, then `host`, then the
hard-coded deployment host, with the session identifier as the `sessionId`
query parameter. -/
def endpointUrl (h : Headers) (clientId : String) : String :=
  strOr h.xForwardedProto "https" ++ "://" ++
    strOr h.xForwardedHost (strOr h.host "sumble-mcp-server.onrender.com") ++
    "/message?sessionId=" ++ clientId

/-- A JSON-RPC response envelope (`jsonrpc` and `id` fields elided into the
constructor): either a result payload or an error with code and message. -/
inductive Envelope where
  | result (id : JsValue) (payload : JsValue)
  | rpcError (id : JsValue) (code : Int) (message : String)

/-- One frame written on an SSE stream: the single `endpoint` control event,
a `message` event carrying a JSON-RPC envelope, or a `:keepalive` comment. -/
inductive Frame where
  | endpoint (url : String)
  | message (env : Envelope)
  | keepalive

def isEndpointFrame : Frame → Bool
  | .endpoint _ => true
  | _ => false

/-- The static `initialize` result (`src/src/server-http.ts` lines 119-128). -/
def initResultPayload : JsValue :=
  .obj [("protocolVersion", .str "2024-11-05"),
        ("capabilities", .obj [("tools", .obj [])]),
        ("serverInfo", .obj [("name", .str "sumble-mcp-server"),
                             ("version", .str "1.0.0")])]

/-- The `tools/list` response envelope (`src/src/server-http.ts` lines
129-136), with the descriptor table projected to the stable names. -/
def toolsListEnvelope (mId : JsValue) : Envelope :=
  .result mId (.obj [("tools", .arr (httpToolsListNames.map JsValue.str))])

/-- The success payload of a tool call (`src/src/server-http.ts` line 184):
one text content block holding the upstream JSON (serialization elided). -/
def toolResultPayload (j : JsValue) : JsValue :=
  .obj [("content", .arr [.obj [("type", .str "text"), ("text", j)]])]

/-- The `tools/call` try/catch of `src/src/server-http.ts` (lines 142-188):
shape the arguments, perform the upstream request through `sumbleRequest`,
wrap the JSON as a result envelope; any thrown error (unknown tool or
upstream failure) is caught and becomes an error envelope with code -32000
and the message text. `net` is the network: the HTTP response the upstream
returns for a given request. -/
def toolsCallHttp (mId : JsValue) (toolName : String) (args : Args)
    (net : UpstreamCall → HttpResponse) : Envelope :=
  match httpToolDispatch toolName args with
  | .error m => .rpcError mId (-32000) m
  | .ok call =>
    match sumbleRequest (net call) with
    | .error m => .rpcError mId (-32000) m
    | .ok j => .result mId (toolResultPayload j)

/-- The upstream requests a `tools/call` issues: exactly the one the shaping
produces, none when the shaping throws before reaching the network. -/
def toolsCallCalls (toolName : String) (args : Args) : List UpstreamCall :=
  match httpToolDispatch toolName args with
  | .ok c => [c]
  | .error _ => []

/-- A parsed JSON-RPC submission: `id`, `method`, and the `params.name` /
`params.arguments` fields the `tools/call` branch reads
(`message.params?.arguments || {}` makes the arguments default to the empty
object, so they are modelled as already-defaulted). -/
structure RpcMsg where
  id : JsValue
  method : String
  paramName : String
  paramArgs : Args

/-- The process-wide session table of `src/src/server-http.ts` (line 41):
each open session identifier together with the frames written so far on the
stream of its connection. -/
structure ServerState where
  clients : List (String × List Frame)

/-- `clients.has(id)`. -/
def hasClient (cs : List (String × List Frame)) (id : String) : Bool :=
  cs.any (fun p => p.1 == id)

/-- `clients.set(id, ...)` together with the fresh response stream of the new
connection: any stale entry under the same identifier is replaced. -/
def setClient (cs : List (String × List Frame)) (id : String) (fs : List Frame) :
    List (String × List Frame) :=
  cs.filter (fun p => p.1 != id) ++ [(id, fs)]

/-- `clients.delete(id)` on connection close. -/
def removeClient (cs : List (String × List Frame)) (id : String) :
    List (String × List Frame) :=
  cs.filter (fun p => p.1 != id)

/-- `res.write(frame)` on the stream of session `id` (a no-op when the
session is not in the table, matching the optional-chaining `client?.res`). -/
def appendFrame (cs : List (String × List Frame)) (id : String) (f : Frame) :
    List (String × List Frame) :=
  cs.map (fun p => if p.1 = id then (p.1, p.2 ++ [f]) else p)

/-- The open session identifiers, in table order. -/
def clientIds (st : ServerState) : List String := st.clients.map Prod.fst

/-- The guard of the `/message` handler (`src/src/server-http.ts` line 102),
negated: `!(!sessionId || !clients.has(sessionId))`. An absent parameter and
the falsy empty string both fail it, as does any identifier not in the table. -/
def sessionValid (st : ServerState) : Option String → Bool
  | none => false
  | some s => s != "" && hasClient st.clients s

/-- The body of the HTTP acknowledgment of a `/message` submission: a bare
transport-level error object `{"error": ...}` (no JSON-RPC envelope), the
`{"status":"accepted"}` object, or the echoed JSON-RPC envelope. -/
inductive AckBody where
  | transportError (message : String)
  | statusAccepted
  | envelope (env : Envelope)

/-- The HTTP response of a request-scoped endpoint; `pending` stands for a
connection that stays open (the SSE stream). -/
inductive Ack where
  | pending
  | http (status : Int) (body : AckBody)

/-- What one transport event produces: the next server state, the HTTP
acknowledgment, and the upstream API requests issued while handling it. -/
structure StepOut where
  state : ServerState
  ack : Ack
  calls : List UpstreamCall

/-- The JSON-RPC method dispatch of the `/message` handler
(`src/src/server-http.ts` lines 111-202), for a submission that passed the
session guard: build the envelope per method, write it as a `message` frame
on the stream of the session, and acknowledge the submission with the
envelope (`notifications/initialized` is acknowledged with 202 and writes no
frame). -/
def handleMessage (st : ServerState) (s : String) (m : RpcMsg)
    (net : UpstreamCall → HttpResponse) : StepOut :=
  if m.method = "initialize" then
    ⟨⟨appendFrame st.clients s (.message (.result m.id initResultPayload))⟩,
      .http 200 (.envelope (.result m.id initResultPayload)), []⟩
  else if m.method = "tools/list" then
    ⟨⟨appendFrame st.clients s (.message (toolsListEnvelope m.id))⟩,
      .http 200 (.envelope (toolsListEnvelope m.id)), []⟩
  else if m.method = "tools/call" then
    ⟨⟨appendFrame st.clients s (.message (toolsCallHttp m.id m.paramName m.paramArgs net))⟩,
      .http 200 (.envelope (toolsCallHttp m.id m.paramName m.paramArgs net)),
      toolsCallCalls m.paramName m.paramArgs⟩
  else if m.method = "notifications/initialized" then
    ⟨st, .http 202 .statusAccepted, []⟩
  else
    ⟨⟨appendFrame st.clients s (.message (.rpcError m.id (-32601) "Method not found"))⟩,
      .http 200 (.envelope (.rpcError m.id (-32601) "Method not found")), []⟩

/-- The externally visible transport events of `src/src/server-http.ts`: a
stream-open request on `/sse` (with its headers and the randomly allocated
identifier), a connection close, one keep-alive timer tick, and a `POST
/message` submission (with its `sessionId` query parameter, its body — `none`
when JSON.parse throws — and the network behavior during its handling). -/
inductive Event where
  | openSse (headers : Headers) (clientId : String)
  | closeSse (clientId : String)
  | keepaliveTick (clientId : String)
  | post (sessionId : Option String) (msg : Option RpcMsg)
      (net : UpstreamCall → HttpResponse)

/-- One transition of the transport (`src/src/server-http.ts` lines 63-210):
`/sse` registers the session and immediately writes the single `endpoint`
frame on the fresh stream; close deletes the session; the keep-alive timer
writes a comment frame while the session is open; `/message` rejects an
invalid session with a 400 transport error before anything else, rejects a
malformed body with a 400 transport error, and otherwise dispatches. -/
def step (st : ServerState) (e : Event) : StepOut :=
  match e with
  | .openSse h cid =>
    ⟨⟨setClient st.clients cid [.endpoint (endpointUrl h cid)]⟩, .pending, []⟩
  | .closeSse cid =>
    ⟨⟨removeClient st.clients cid⟩, .pending, []⟩
  | .keepaliveTick cid =>
    if hasClient st.clients cid = true then
      ⟨⟨appendFrame st.clients cid .keepalive⟩, .pending, []⟩
    else ⟨st, .pending, []⟩
  | .post sid msg net =>
    if sessionValid st sid = true then
      match sid, msg with
      | some s, some m => handleMessage st s m net
      | _, none => ⟨st, .http 400 (.transportError "Unexpected end of JSON input"), []⟩
      | none, some _ => ⟨st, .http 400 (.transportError "Invalid or expired session"), []⟩
    else
      ⟨st, .http 400 (.transportError "Invalid or expired session"), []⟩

/-- The state after a sequence of transport events, from the empty table the
process starts with. -/
def run (events : List Event) : ServerState :=
  events.foldl (fun st e => (step st e).state) ⟨[]⟩

/-- A well-formed stream: its first frame is the `endpoint` event carrying
the URL built from some request headers and the session identifier, and no
later frame is an `endpoint` event. -/
def streamOk (id : String) (fs : List Frame) : Prop :=
  ∃ h rest, fs = Frame.endpoint (endpointUrl h id) :: rest ∧
    ∀ f ∈ rest, isEndpointFrame f = false

/-- Every stream in the session table is well-formed. -/
def invariantS (st : ServerState) : Prop :=
  ∀ id fs, (id, fs) ∈ st.clients → streamOk id fs

/-- The concrete `find_jobs` argument object of the spec scenario:
`{"technologies":["react"],"countries":["US"],"limit":20}`. -/
def findJobsScenarioArgs : Args :=
  [("technologies", .arr [.str "react"]),
   ("countries", .arr [.str "US"]),
   ("limit", .num 20)]

theorem mem_setClient {cs : List (String × List Frame)} {id a : String}
    {fs gs : List Frame} (h : (a, gs) ∈ setClient cs id fs) :
    (a, gs) ∈ cs ∨ (a = id ∧ gs = fs) := by
  unfold setClient at h
  rcases List.mem_append.mp h with h | h
  · exact Or.inl (List.mem_filter.mp h).1
  · have h := List.mem_singleton.mp h
    injection h with h1 h2
    exact Or.inr ⟨h1, h2⟩

theorem mem_appendFrame {cs : List (String × List Frame)} {id a : String}
    {f : Frame} {gs : List Frame} (h : (a, gs) ∈ appendFrame cs id f) :
    (a, gs) ∈ cs ∨ ∃ gs₀, (a, gs₀) ∈ cs ∧ gs = gs₀ ++ [f] := by
  unfold appendFrame at h
  rcases List.mem_map.mp h with ⟨p, hp, himg⟩
  obtain ⟨k, v⟩ := p
  by_cases hk : k = id
  · rw [if_pos hk] at himg
    injection himg with h1 h2
    subst h1
    exact Or.inr ⟨v, hp, h2.symm⟩
  · rw [if_neg hk] at himg
    rw [himg] at hp
    exact Or.inl hp

theorem streamOk_append {id : String} {fs : List Frame} {f : Frame}
    (h : streamOk id fs) (hf : isEndpointFrame f = false) :
    streamOk id (fs ++ [f]) := by
  obtain ⟨hd, rest, hfs, hr⟩ := h
  refine ⟨hd, rest ++ [f], by rw [hfs]; rfl, ?_⟩
  intro g hg
  rcases List.mem_append.mp hg with hg | hg
  · exact hr g hg
  · rw [List.mem_singleton.mp hg]
    exact hf

theorem invariantS_appendFrame {st : ServerState} {id : String} {f : Frame}
    (h : invariantS st) (hf : isEndpointFrame f = false) :
    invariantS ⟨appendFrame st.clients id f⟩ := by
  intro a gs hmem
  rcases mem_appendFrame hmem with hm | ⟨gs₀, hm, rfl⟩
  · exact h a gs hm
  · exact streamOk_append (h a gs₀ hm) hf

theorem invariantS_handleMessage {st : ServerState} {s : String} {m : RpcMsg}
    {net : UpstreamCall → HttpResponse} (h : invariantS st) :
    invariantS (handleMessage st s m net).state := by
  unfold handleMessage
  split_ifs <;> first
    | exact invariantS_appendFrame h rfl
    | exact h

theorem invariantS_step {st : ServerState} (e : Event) (h : invariantS st) :
    invariantS (step st e).state := by
  cases e with
  | openSse hd cid =>
    intro a gs hmem
    rcases mem_setClient hmem with hm | ⟨rfl, rfl⟩
    · exact h a gs hm
    · exact ⟨hd, [], rfl, fun f hf => absurd hf (List.not_mem_nil f)⟩
  | closeSse cid =>
    intro a gs hmem
    exact h a gs (List.mem_filter.mp hmem).1
  | keepaliveTick cid =>
    simp only [step]
    split_ifs
    · exact invariantS_appendFrame h rfl
    · exact h
  | post sid msg net =>
    simp only [step]
    split_ifs
    · cases sid with
      | none => cases msg with
        | none => exact h
        | some m => exact h
      | some s => cases msg with
        | none => exact h
        | some m => exact invariantS_handleMessage h
    · exact h

theorem invariantS_run (events : List Event) : invariantS (run events) := by
  have base : invariantS ⟨[]⟩ := fun a gs hmem => absurd hmem (List.not_mem_nil _)
  suffices h : ∀ st : ServerState, invariantS st →
      invariantS (events.foldl (fun st e => (step st e).state) st) from h ⟨[]⟩ base
  induction events with
  | nil => intro st hst; exact hst
  | cons e es ih =>
    intro st hst
    exact ih _ (invariantS_step e hst)

theorem map_fst_appendFrame (cs : List (String × List Frame)) (id : String)
    (f : Frame) : (appendFrame cs id f).map Prod.fst = cs.map Prod.fst := by
  induction cs with
  | nil => rfl
  | cons p ps ih =>
    obtain ⟨k, v⟩ := p
    by_cases hk : k = id <;> simp [appendFrame, hk] at ih ⊢ <;> exact ih

/-- C1: a POST message submission whose sessionId is absent, never issued, or
refers to a closed session is answered with a 400 transport-level error body
(no JSON-RPC envelope), the session table and every stream stay unchanged,
and no upstream API call is issued. -/
theorem spec_c1_invalid_session_rejected (st : ServerState) (sid : Option String)
    (msg : Option RpcMsg) (net : UpstreamCall → HttpResponse)
    (h : sessionValid st sid = false) :
    step st (.post sid msg net) =
      ⟨st, .http 400 (.transportError "Invalid or expired session"), []⟩ := by
  simp [step, h]

/-- C1 witness: a session opened and then closed is rejected with the 400
transport error, an unchanged state and no upstream calls. -/
theorem spec_c1_witness :
    step (run [.openSse ⟨none, none, none⟩ "abc", .closeSse "abc"])
        (.post (some "abc") none (fun _ => ⟨200, "", .null⟩)) =
      ⟨run [.openSse ⟨none, none, none⟩ "abc", .closeSse "abc"],
        .http 400 (.transportError "Invalid or expired session"), []⟩ :=
  spec_c1_invalid_session_rejected _ _ _ _ rfl

/-- C2 counterexample: in the HTTP variant dispatch (`server-http.ts`),
`enrich_organization` and `find_people` called with no arguments at all do
not raise a tool-execution error: they produce an upstream request whose
organization carries an undefined domain. -/
theorem spec_c2_counterexample :
    httpToolDispatch "enrich_organization" [] =
      .ok ⟨"/v2/organizations/enrich", "POST",
        .obj [("organization", .obj [("domain", .undefined)]), ("filters", .obj [])]⟩
    ∧ httpToolDispatch "find_people" [] =
      .ok ⟨"/v3/people/find", "POST",
        .obj [("organization", .obj [("domain", .undefined)]),
              ("filters", .obj [("job_titles", .arr []), ("countries", .arr [])]),
              ("limit", .num 10)]⟩ :=
  ⟨rfl, rfl⟩

/-- C2 amended: in the stdio dispatcher (`handleToolCall`, part_001),
`enrich_organization` and `find_people` with none of domain /
organization_id / slug truthy throw before any upstream request is shaped. -/
theorem spec_c2_amended (args : Args)
    (hd : truthy (getArg args "domain") = false)
    (hi : truthy (getArg args "organization_id") = false)
    (hs : truthy (getArg args "slug") = false) :
    handleToolCall "enrich_organization" args =
      .error "Must provide domain, organization_id, or slug"
    ∧ handleToolCall "find_people" args =
      .error "Must provide domain, organization_id, or slug" := by
  have hb : buildOrganization args =
      .error "Must provide domain, organization_id, or slug" := by
    simp [buildOrganization, hd, hi, hs]
  constructor <;> simp [handleToolCall, hb]

/-- C2 witness: both stdio tools reject the empty argument object. -/
theorem spec_c2_witness :
    handleToolCall "enrich_organization" [] =
      .error "Must provide domain, organization_id, or slug"
    ∧ handleToolCall "find_people" [] =
      .error "Must provide domain, organization_id, or slug" :=
  spec_c2_amended [] rfl rfl rfl

/-- C3 counterexample: the express variant (`server.ts`) registers only three
tools, and its tools/list table does not contain find_jobs, so not every
tools/list response carries the four declared descriptors. -/
theorem spec_c3_counterexample :
    serverTsToolsList.length = 3 ∧ "find_jobs" ∉ serverTsToolsList := by
  decide

/-- C3 amended: the HTTP variants (`server-http.ts`, part_000) and the stdio
variant (part_001) declare exactly the four descriptors with the stable
names, and their tools/list response carries exactly that table; the express
variant (`server.ts`) registers only three of them (find_jobs is absent). -/
theorem spec_c3_amended :
    (∀ mId, toolsListEnvelope mId =
      .result mId (.obj [("tools", .arr (httpToolsListNames.map JsValue.str))]))
    ∧ httpToolsListNames =
        ["find_organizations", "enrich_organization", "find_jobs", "find_people"]
    ∧ part000ToolNames =
        ["find_organizations", "enrich_organization", "find_jobs", "find_people"]
    ∧ stdioToolNames =
        ["find_organizations", "enrich_organization", "find_jobs", "find_people"]
    ∧ serverTsToolsList = ["enrich_organization", "find_organizations", "find_people"] :=
  ⟨fun _ => rfl, rfl, rfl, rfl, rfl⟩

/-- C5: the upstream client wrappers surface a non-2xx status as a thrown
error whose message carries the numeric status and the response text, and
return the parsed JSON body on a 2xx status. -/
theorem spec_c5_upstream_errors (r : HttpResponse) :
    (respOk r = false →
      sumbleRequest r =
        .error ("Sumble API error: " ++ toString r.status ++ " " ++ r.text)
      ∧ clientRequest r =
        .error ("Sumble API error (" ++ toString r.status ++ "): " ++ r.text))
    ∧ (respOk r = true →
      sumbleRequest r = .ok r.body ∧ clientRequest r = .ok r.body) := by
  constructor
  · intro h
    constructor <;> simp [sumbleRequest, clientRequest, h]
  · intro h
    constructor <;> simp [sumbleRequest, clientRequest, h]

/-- C5 witness: a 404 produces the error message with status and text, a 200
returns the body. -/
theorem spec_c5_witness :
    sumbleRequest ⟨404, "not found", .null⟩ =
      .error "Sumble API error: 404 not found"
    ∧ sumbleRequest ⟨200, "", .str "payload"⟩ = .ok (.str "payload") :=
  ⟨((spec_c5_upstream_errors ⟨404, "not found", .null⟩).1 rfl).1,
   ((spec_c5_upstream_errors ⟨200, "", .str "payload"⟩).2 rfl).1⟩

/-- C6: the find_jobs scenario arguments produce, in both shaping variants,
a body with filters.technologies = ["react"], filters.countries = ["US"] and
limit = 20; the offset is the declared default 0 in the stdio body and absent
from the HTTP body. -/
theorem spec_c6_find_jobs_scenario :
    ((bodyOf (handleToolCall "find_jobs" findJobsScenarioArgs)).get "filters").get
        "technologies" = .arr [.str "react"]
    ∧ ((bodyOf (handleToolCall "find_jobs" findJobsScenarioArgs)).get "filters").get
        "countries" = .arr [.str "US"]
    ∧ (bodyOf (handleToolCall "find_jobs" findJobsScenarioArgs)).get "limit" = .num 20
    ∧ (bodyOf (handleToolCall "find_jobs" findJobsScenarioArgs)).get "offset" = .num 0
    ∧ ((bodyOf (httpToolDispatch "find_jobs" findJobsScenarioArgs)).get "filters").get
        "technologies" = .arr [.str "react"]
    ∧ ((bodyOf (httpToolDispatch "find_jobs" findJobsScenarioArgs)).get "filters").get
        "countries" = .arr [.str "US"]
    ∧ (bodyOf (httpToolDispatch "find_jobs" findJobsScenarioArgs)).get "limit" = .num 20
    ∧ (bodyOf (httpToolDispatch "find_jobs" findJobsScenarioArgs)).get "offset" =
        .undefined :=
  ⟨rfl, rfl, rfl, rfl, rfl, rfl, rfl, rfl⟩

/-- C9 counterexample: with SUMBLE_API_KEY present but set to the empty
string, startup does not proceed: the falsiness check exits with the
diagnostic, contradicting the claim that presence suffices. -/
theorem spec_c9_counterexample :
    startupCheck (some "") =
      .exited 1 "Error: SUMBLE_API_KEY environment variable is required"
    ∧ startupCheck (some "") ≠ .started :=
  ⟨rfl, by decide⟩

/-- C9 amended: an absent or empty SUMBLE_API_KEY exits with status 1 and the
diagnostic naming the variable, before any server is started; a present,
nonempty key lets startup proceed. -/
theorem spec_c9_amended (k : Option String) :
    ((k = none ∨ k = some "") →
      startupCheck k =
        .exited 1 "Error: SUMBLE_API_KEY environment variable is required")
    ∧ (∀ s, k = some s → s ≠ "" → startupCheck k = .started) := by
  constructor
  · rintro (rfl | rfl) <;> rfl
  · rintro s rfl hs
    simp [startupCheck, hs]

/-- C9 witness: an unset key exits with the diagnostic; a nonempty key
starts. -/
theorem spec_c9_witness :
    startupCheck none =
      .exited 1 "Error: SUMBLE_API_KEY environment variable is required"
    ∧ startupCheck (some "sk-test") = .started :=
  ⟨(spec_c9_amended none).1 (Or.inl rfl),
   (spec_c9_amended (some "sk-test")).2 "sk-test" rfl (by decide)⟩

/-- C10: when the limit argument is absent or 0, every limit-carrying tool
body of both dispatchers (and the server.ts handlers) carries limit = 10,
because the JS default `limit || 10` treats 0 as falsy. -/
theorem spec_c10_limit_default (args : Args)
    (h : getArg args "limit" = .undefined ∨ getArg args "limit" = .num 0) :
    (bodyOf (handleToolCall "find_organizations" args)).get "limit" = .num 10
    ∧ (bodyOf (handleToolCall "find_jobs" args)).get "limit" = .num 10
    ∧ (truthy (getArg args "domain") = true →
        (bodyOf (handleToolCall "find_people" args)).get "limit" = .num 10)
    ∧ (bodyOf (httpToolDispatch "find_organizations" args)).get "limit" = .num 10
    ∧ (bodyOf (httpToolDispatch "find_jobs" args)).get "limit" = .num 10
    ∧ (bodyOf (httpToolDispatch "find_people" args)).get "limit" = .num 10
    ∧ (∀ l : Option Int, (l = none ∨ l = some 0) → serverTsLimit l = 10) := by
  have hl : jsOr (getArg args "limit") (.num 10) = .num 10 := by
    rcases h with h | h <;> rw [jsOr, h] <;> rfl
  refine ⟨hl, hl, ?_, hl, hl, hl, ?_⟩
  · intro hd
    have hb : buildOrganization args = .ok (.obj [("domain", getArg args "domain")]) := by
      rw [buildOrganization, if_pos hd]
    simp only [handleToolCall]
    simp [hb]
    exact hl
  · intro l hl0
    rcases hl0 with rfl | rfl <;> rfl

/-- C10 witness: an explicit limit of 0 (with a domain for find_people)
yields limit = 10 in the shaped bodies. -/
theorem spec_c10_witness :
    (bodyOf (handleToolCall "find_organizations"
      [("limit", JsValue.num 0), ("domain", JsValue.str "x.com")])).get "limit" =
      .num 10
    ∧ (bodyOf (handleToolCall "find_people"
      [("limit", JsValue.num 0), ("domain", JsValue.str "x.com")])).get "limit" =
      .num 10 :=
  ⟨(spec_c10_limit_default [("limit", .num 0), ("domain", .str "x.com")] (Or.inr rfl)).1,
   (spec_c10_limit_default [("limit", .num 0), ("domain", .str "x.com")]
     (Or.inr rfl)).2.2.1 rfl⟩

/-- C4: every tools/call outcome is a JSON-RPC envelope — a result or an
error with the generic internal code -32000 carrying the message text; an
unknown tool name and an upstream non-2xx failure in particular yield that
error envelope; and handling a tools/call submission never removes a session
from the table (neither the session nor the submission is terminated). -/
theorem spec_c4_errors_caught (mId : JsValue) (name : String) (args : Args)
    (net : UpstreamCall → HttpResponse) :
    ((∃ m, toolsCallHttp mId name args net = .rpcError mId (-32000) m)
      ∨ (∃ p, toolsCallHttp mId name args net = .result mId p))
    ∧ (name ∉ httpToolsListNames →
        toolsCallHttp mId name args net =
          .rpcError mId (-32000) ("Unknown tool: " ++ name))
    ∧ (∀ call, httpToolDispatch name args = .ok call → respOk (net call) = false →
        toolsCallHttp mId name args net = .rpcError mId (-32000)
          ("Sumble API error: " ++ toString (net call).status ++ " " ++ (net call).text))
    ∧ (∀ (st : ServerState) (s : String) (m : RpcMsg),
        sessionValid st (some s) = true → m.method = "tools/call" →
        clientIds (step st (.post (some s) (some m) net)).state = clientIds st) := by
  refine ⟨?_, ?_, ?_, ?_⟩
  · cases hd : httpToolDispatch name args with
    | error m => exact Or.inl ⟨m, by simp [toolsCallHttp, hd]⟩
    | ok call =>
      cases hr : sumbleRequest (net call) with
      | error m => exact Or.inl ⟨m, by simp [toolsCallHttp, hd, hr]⟩
      | ok j => exact Or.inr ⟨toolResultPayload j, by simp [toolsCallHttp, hd, hr]⟩
  · intro hn
    simp only [httpToolsListNames, List.mem_cons, List.not_mem_nil, not_or] at hn
    obtain ⟨h1, h2, h3, h4, -⟩ := hn
    simp [toolsCallHttp, httpToolDispatch, h1, h2, h3, h4]
  · intro call hcall hfail
    simp [toolsCallHttp, hcall, sumbleRequest, hfail]
  · intro st s m hv hm
    simp [step, hv, handleMessage, hm, clientIds, map_fst_appendFrame]

/-- C4 witness: an unknown tool and an upstream 500 both come back as -32000
error envelopes, and a tools/call submission leaves the session table keys
unchanged. -/
theorem spec_c4_witness :
    toolsCallHttp (.num 1) "no_such_tool" [] (fun _ => ⟨500, "boom", .null⟩) =
      .rpcError (.num 1) (-32000) "Unknown tool: no_such_tool"
    ∧ toolsCallHttp (.num 1) "find_jobs" [] (fun _ => ⟨500, "boom", .null⟩) =
      .rpcError (.num 1) (-32000) "Sumble API error: 500 boom"
    ∧ clientIds (step ⟨[("abc", [])]⟩
        (.post (some "abc") (some ⟨.num 1, "tools/call", "find_jobs", []⟩)
          (fun _ => ⟨500, "boom", .null⟩))).state = clientIds ⟨[("abc", [])]⟩ := by
  refine ⟨?_, ?_, ?_⟩
  · exact (spec_c4_errors_caught (.num 1) "no_such_tool" []
      (fun _ => ⟨500, "boom", .null⟩)).2.1 (by decide)
  · exact (spec_c4_errors_caught (.num 1) "find_jobs"
      [] (fun _ => ⟨500, "boom", .null⟩)).2.2.1
      ⟨"/v2/jobs/find", "POST", .obj [
        ("filters", .obj [("technologies", .arr []), ("countries", .arr []),
          ("keywords", .arr [])]),
        ("limit", .num 10)]⟩ rfl rfl
  · exact (spec_c4_errors_caught (.num 1) "find_jobs" []
      (fun _ => ⟨500, "boom", .null⟩)).2.2.2 ⟨[("abc", [])]⟩ "abc"
      ⟨.num 1, "tools/call", "find_jobs", []⟩ rfl rfl

/-- C7: in every reachable state, every stream in the session table starts
with exactly one endpoint event (the head frame) and carries no further
endpoint event, and the URL of that event is built from the request headers
with the session identifier as the sessionId query parameter; when nonempty
x-forwarded-proto and x-forwarded-host headers are present, the URL uses
exactly that scheme and host. -/
theorem spec_c7_endpoint_first (events : List Event) :
    (∀ id fs, (id, fs) ∈ (run events).clients →
      ∃ h rest, fs = Frame.endpoint (endpointUrl h id) :: rest ∧
        ∀ f ∈ rest, isEndpointFrame f = false)
    ∧ (∀ (h : Headers) (id p hst : String),
        h.xForwardedProto = some p → p ≠ "" →
        h.xForwardedHost = some hst → hst ≠ "" →
        endpointUrl h id = p ++ "://" ++ hst ++ "/message?sessionId=" ++ id) := by
  constructor
  · exact fun id fs hmem => invariantS_run events id fs hmem
  · intro h id p hst hp hpne hh hhne
    simp [endpointUrl, hp, hh, strOr, hpne, hhne]

/-- C7 witness: one stream-open with forwarded headers yields a table whose
only stream is the single endpoint frame, and its URL is the forwarded
scheme and host with the session identifier as query parameter. -/
theorem spec_c7_witness :
    (∃ h rest,
      [Frame.endpoint (endpointUrl ⟨some "http", some "proxy.example", none⟩ "abc")] =
        Frame.endpoint (endpointUrl h "abc") :: rest ∧
        ∀ f ∈ rest, isEndpointFrame f = false)
    ∧ endpointUrl ⟨some "http", some "proxy.example", none⟩ "abc" =
        "http" ++ "://" ++ "proxy.example" ++ "/message?sessionId=" ++ "abc" := by
  constructor
  · exact (spec_c7_endpoint_first
      [.openSse ⟨some "http", some "proxy.example", none⟩ "abc"]).1 "abc" _
      (List.mem_singleton.mpr rfl)
  · exact (spec_c7_endpoint_first []).2 ⟨some "http", some "proxy.example", none⟩
      "abc" "http" "proxy.example" rfl (by decide) rfl (by decide)

/-- C8: the upstream requests issued for a tools/call submission depend only
on the tool name and arguments of the message: any two valid submissions with
the same name and arguments — in different states, sessions, with different
message ids and network behaviors, hence in any call order — issue
identical outbound request bodies. -/
theorem spec_c8_pure_shaping (st₁ st₂ : ServerState) (s₁ s₂ : String)
    (m₁ m₂ : RpcMsg) (net₁ net₂ : UpstreamCall → HttpResponse)
    (h₁ : sessionValid st₁ (some s₁) = true) (h₂ : sessionValid st₂ (some s₂) = true)
    (hm₁ : m₁.method = "tools/call") (hm₂ : m₂.method = "tools/call")
    (hname : m₁.paramName = m₂.paramName) (hargs : m₁.paramArgs = m₂.paramArgs) :
    (step st₁ (.post (some s₁) (some m₁) net₁)).calls =
      (step st₂ (.post (some s₂) (some m₂) net₂)).calls := by
  simp [step, h₁, h₂, handleMessage, hm₁, hm₂, hname, hargs]

/-- C8 witness: the same find_jobs call in two different states, sessions and
network behaviors issues the same upstream requests. -/
theorem spec_c8_witness :
    (step ⟨[("a", [])]⟩ (.post (some "a")
        (some ⟨.num 1, "tools/call", "find_jobs", [("limit", JsValue.num 5)]⟩)
        (fun _ => ⟨200, "", .null⟩))).calls =
    (step ⟨[("b", []), ("c", [])]⟩ (.post (some "c")
        (some ⟨.num 2, "tools/call", "find_jobs", [("limit", JsValue.num 5)]⟩)
        (fun _ => ⟨500, "x", .null⟩))).calls :=
  spec_c8_pure_shaping _ _ _ _ _ _ _ _ rfl rfl rfl rfl rfl rfl

end SumbleMcp
